import Mathlib

/-!
Shallow embedding of the upnp-daemon port-mapping reconciliation engine
(src/src/lib.rs).  The gateway device, the interface enumeration and the
UPnP discovery are external effects; they are modelled as explicit
parameters (an interface list, a discovery oracle, and a stateful gateway
oracle), and `run` is translated as a pure function over them that also
records the sequence of gateway calls it performs.  Rust panics
(`unwrap`, `panic!`, `unreachable!`) are modelled by an explicit
`PanicOr.panic` outcome with a per-site message.
-/

namespace UpnpDaemon

/-- Rust `PortMappingProtocol` from src/src/lib.rs (also mirrors
`igd::PortMappingProtocol`, to which it converts one-to-one). -/
inductive PortMappingProtocol
  | TCP
  | UDP
deriving DecidableEq

/-- An IPv4 address, four octets (`std::net::Ipv4Addr`). -/
structure Ipv4Addr where
  o1 : Nat
  o2 : Nat
  o3 : Nat
  o4 : Nat
deriving DecidableEq

/-- Rust `Ipv4Addr::is_loopback`: the 127.0.0.0/8 block. -/
def Ipv4Addr.is_loopback (ip : Ipv4Addr) : Bool :=
  ip.o1 = 127

/-- Rust `std::net::IpAddr`; the IPv6 payload is kept as its textual literal,
since nothing in the program inspects IPv6 addresses beyond rejecting
them. -/
inductive IpAddr
  | V4 (ip : Ipv4Addr)
  | V6 (ip : List Char)
deriving DecidableEq

/-- Rust `IpAddr::is_ipv4`. -/
def IpAddr.is_ipv4 : IpAddr → Bool
  | .V4 _ => true
  | .V6 _ => false

/-- Rust `IpAddr::is_loopback` (IPv6 loopback is the literal `::1`). -/
def IpAddr.is_loopback : IpAddr → Bool
  | .V4 ip => ip.is_loopback
  | .V6 ip => ip = [':', ':', '1']

/-- Rust `std::net::SocketAddrV4`: an IPv4 address and a port. -/
structure SocketAddrV4 where
  ip : Ipv4Addr
  port : Nat
deriving DecidableEq

/-- Rust `std::net::SocketAddr`. -/
inductive SocketAddr
  | V4 (a : SocketAddrV4)
  | V6 (ip : List Char) (port : Nat)
deriving DecidableEq

/-- Rust `SocketAddr::set_port`. -/
def SocketAddr.set_port : SocketAddr → Nat → SocketAddr
  | .V4 a, p => .V4 ⟨a.ip, p⟩
  | .V6 ip _, p => .V6 ip p

/-- Rust `get_if_addrs::Ifv4Addr` (only the `ip` field is used by the code). -/
structure Ifv4Addr where
  ip : Ipv4Addr
deriving DecidableEq

/-- Rust `get_if_addrs::Ifv6Addr` (only the `ip` field is used by the code). -/
structure Ifv6Addr where
  ip : List Char
deriving DecidableEq

/-- Rust `get_if_addrs::IfAddr`. -/
inductive IfAddr
  | V4 (a : Ifv4Addr)
  | V6 (a : Ifv6Addr)
deriving DecidableEq

/-- Rust `get_if_addrs::Interface`: a name and an address. -/
structure Interface where
  name : List Char
  addr : IfAddr
deriving DecidableEq

/-- Rust `Interface::ip`: the IP of the interface address. -/
def Interface.ip (i : Interface) : IpAddr :=
  match i.addr with
  | .V4 a => .V4 a.ip
  | .V6 a => .V6 a.ip

/-- Rust `Interface::is_loopback`: whether the interface address is a loopback
address. -/
def Interface.is_loopback (i : Interface) : Bool :=
  i.ip.is_loopback

/-- Rust `Options` from src/src/lib.rs: one mapping specification.  The
`address` field is kept as the raw character list of the CSV field, as in
the source (`Option<String>`). -/
structure Options where
  address : Option (List Char)
  port : Nat
  protocol : PortMappingProtocol
  duration : Nat
  comment : List Char

/-- Rust `igd::AddPortError` (the error type of `Gateway::add_port`). -/
inductive AddPortError
  | ActionNotAuthorized
  | DescriptionTooLong
  | ExternalPortZeroInvalid
  | InternalPortZeroInvalid
  | OnlyPermanentLeasesSupported
  | PortInUse
  | RequestError (e : List Char)
  | SamePortValuesRequired
deriving DecidableEq

/-- Rust `igd::RemovePortError` (the error type of `Gateway::remove_port`). -/
inductive RemovePortError
  | ActionNotAuthorized
  | NoSuchPortMapping
  | RequestError (e : List Char)
deriving DecidableEq

/-- A result of the Rust code including its panic exits: `unwrap`,
`panic!` and `unreachable!` are modelled as `panic` with a message
identifying the site. -/
inductive PanicOr (α : Type)
  | panic (msg : List Char)
  | ok (a : α)
deriving DecidableEq

/-- Panic message of `.next().unwrap()` in `find_gateway_and_addr` when no
eligible interface yields a gateway (Option::unwrap on None). -/
def unwrapNoneMsg : List Char := "called Option::unwrap() on a None value".data

/-- Panic message of the `unwrap` on `format(iface.addr.ip() ++ ":0").parse()`
in `find_gateway_and_addr` (would fire only for a non-IPv4 address, whose
unbracketed textual form does not parse as a socket address). -/
def bindParseMsg : List Char := "invalid socket address syntax (bind_addr)".data

/-- Panic message of `unreachable!()` in `find_gateway_and_addr`. -/
def unreachableMsg : List Char := "internal error: entered unreachable code".data

/-- Panic message of the `unwrap` on `igd::search_gateway` in
`find_gateway_with_bind_addr`. -/
def searchUnwrapMsg : List Char := "called Result::unwrap() on an Err value (search_gateway)".data

/-- Panic message of the `unwrap` on the socket-address parse of the
explicit `address` field in `run`. -/
def parseUnwrapMsg : List Char := "invalid socket address syntax (run)".data

/-- Panic message of `panic!(No IPv4 given)` in `run`. -/
def noIpv4Msg : List Char := "No IPv4 given".data

/-- Panic message of the `unwrap` on `gateway.remove_port` in `run`. -/
def removeUnwrapMsg : List Char := "called Result::unwrap() on an Err value (remove_port)".data

/-!  Socket-address parsing.  The source parses strings with Rust's
`std::net::SocketAddr: FromStr`.  We model it over `List Char`. -/

/-- Split a character list at every occurrence of `sep` (like
`str::split`). -/
def splitOnChar (sep : Char) : List Char → List (List Char)
  | [] => [[]]
  | c :: cs =>
    let r := splitOnChar sep cs
    if c = sep then
      [] :: r
    else
      match r with
      | g :: gs => (c :: g) :: gs
      | [] => [[c]]

/-- Numeric value of a list of decimal digits. -/
def digitsToNat (l : List Char) : Nat :=
  l.foldl (fun a c => a * 10 + (c.toNat - 48)) 0

/-- One decimal octet of an IPv4 literal, as Rust's `Ipv4Addr` parser
accepts it: one to three decimal digits, no leading zero, value at
most 255. -/
def parseDecOctet (l : List Char) : Option Nat :=
  if l = [] then none
  else if !(l.all Char.isDigit) then none
  else if 1 < l.length && l.head? = some '0' then none
  else if 3 < l.length then none
  else
    let n := digitsToNat l
    if n ≤ 255 then some n else none

/-- Rust's `Ipv4Addr` parser: four dot-separated decimal octets. -/
def parseIpv4 (l : List Char) : Option Ipv4Addr :=
  match splitOnChar '.' l with
  | [a, b, c, d] =>
    match parseDecOctet a, parseDecOctet b, parseDecOctet c, parseDecOctet d with
    | some x, some y, some z, some w => some ⟨x, y, z, w⟩
    | _, _, _, _ => none
  | _ => none

/-- Hexadecimal digit test for IPv6 groups. -/
def isHexChar (c : Char) : Bool :=
  c.isDigit || (97 ≤ c.toNat && c.toNat ≤ 102) || (65 ≤ c.toNat && c.toNat ≤ 70)

/-- Shape check for an IPv6 literal: colon-separated hexadecimal groups of
at most four digits, at most eight groups, with empty groups only as
produced by a `::` run.  This abstracts the exact `Ipv6Addr` grammar
(zero-compression arity, embedded IPv4 forms): no verified claim depends
on which IPv6 literals are accepted, only on the IPv4 grammar above. -/
def isIpv6Lit (l : List Char) : Bool :=
  let gs := splitOnChar ':' l
  (!l.isEmpty) && l.all (fun c => isHexChar c || c = ':')
    && 3 ≤ gs.length && gs.length ≤ 9
    && gs.all (fun g => g.length ≤ 4)

/-- Models `format!(address ++ colon ++ port).parse::<SocketAddr>()`, the
parse performed by `run` on an explicit `address` field (and, with port
0, by `find_gateway_and_addr` on an interface address).  Appending
`:port` (the decimal digits of a `u16`) and parsing the combined string
is equivalent to: a bracketed form `[v6]` parses as a V6 socket address
with that port; any other address containing a colon makes the combined
string unparsable; otherwise the address must be a bare IPv4 literal and
the port is attached to it. -/
def parseAddrWithPort (addr : List Char) (port : Nat) : Option SocketAddr :=
  if 65535 < port then none
  else if addr.head? = some '[' then
    let inner := (addr.drop 1).dropLast
    if addr.getLast? = some ']' && isIpv6Lit inner then
      some (.V6 inner port)
    else none
  else if addr.contains ':' then none
  else
    match parseIpv4 addr with
    | some ip => some (.V4 ⟨ip, port⟩)
    | none => none

/-!  Gateway discovery and the gateway device are external effects.
`search` is the discovery oracle: `igd::search_gateway` bound to a given
local socket address, returning a gateway handle of abstract type `γ` on
success.  The gateway oracle gives the responses of `Gateway::add_port`
and `Gateway::remove_port`, threading an abstract world state `σ`. -/

/-- The external gateway: responses of `add_port` and `remove_port`
(network I/O), threading a world state.  Argument order follows the igd
signatures: protocol, external port, internal socket, lease duration,
description. -/
structure GatewayOracle (γ σ : Type) where
  addPort : γ → σ → PortMappingProtocol → Nat → SocketAddrV4 → Nat → List Char →
    Except AddPortError Unit × σ
  removePort : γ → σ → PortMappingProtocol → Nat → Except RemovePortError Unit × σ

/-- One gateway call performed by `run`, for the call trace. -/
inductive GatewayCall
  | add (protocol : PortMappingProtocol) (port : Nat) (addr : SocketAddrV4)
      (duration : Nat) (description : List Char)
  | remove (protocol : PortMappingProtocol) (port : Nat)
deriving DecidableEq

/-- Function `find_gateway_with_bind_addr` from src/src/lib.rs: search scoped to
the given bind address, `unwrap`ping the result (panic when no gateway
answers). -/
def find_gateway_with_bind_addr {γ : Type} (search : SocketAddr → Option γ)
    (bind_addr : SocketAddr) : PanicOr γ :=
  match search bind_addr with
  | some gw => .ok gw
  | none => .panic searchUnwrapMsg

/-- The bind address `find_gateway_and_addr` constructs for an interface:
the interface IP with port 0 (the `format` and parse of `ip ++ ":0"`).
Meaningful for IPv4 interfaces, the only ones that reach it. -/
def bindOf (i : Interface) : SocketAddr :=
  match i.addr with
  | .V4 a => .V4 ⟨a.ip, 0⟩
  | .V6 a => .V6 a.ip 0

/-- Eligibility filter of `find_gateway_and_addr`: not loopback and
IPv4. -/
def eligible (i : Interface) : Bool :=
  !i.is_loopback && i.ip.is_ipv4

/-- Function `find_gateway_and_addr` from src/src/lib.rs, over the interface list
and the discovery oracle.  The iterator chain
`ifaces.iter().filter_map(closure).next().unwrap()` is a short-circuiting
scan: the closure skips loopback and non-IPv4 interfaces, otherwise
builds the bind address (`unwrap`ped parse of `ip ++ ":0"`), runs the
discovery, and on success destructures the interface address as V4 with
an `unreachable!()` fallback; `.next()` stops at the first `some`, and
the final `unwrap` panics when every interface was skipped or failed.
Besides the result, the model returns the list of bind addresses on
which discovery was actually attempted, in order. -/
def find_gateway_and_addr {γ : Type} (search : SocketAddr → Option γ) :
    List Interface → PanicOr (γ × SocketAddr) × List SocketAddr
  | [] => (.panic unwrapNoneMsg, [])
  | i :: rest =>
    if i.is_loopback || !i.ip.is_ipv4 then
      find_gateway_and_addr search rest
    else
      match i.addr with
      | .V6 _ => (.panic bindParseMsg, [])
      | .V4 a =>
        let bind : SocketAddr := .V4 ⟨a.ip, 0⟩
        match search bind with
        | none =>
          let r := find_gateway_and_addr search rest
          (r.1, bind :: r.2)
        | some gw =>
          match i.addr with
          | .V4 a2 => (.ok (gw, .V4 ⟨a2.ip, 0⟩), [bind])
          | .V6 _ => (.panic unreachableMsg, [bind])

/-- Result of `run`: `Ok(())`, a propagated `AddPortError` (the only error
that reaches the `?`), or a panic. -/
inductive RunResult
  | ok
  | err (e : AddPortError)
  | panic (msg : List Char)
deriving DecidableEq

/-- The add-with-conflict-retry tail of `run` (lines 250-259):
`f().or_else(...)` where `f` is `gateway.add_port(protocol, port, addr,
duration, comment)`.  On `AddPortError::PortInUse` the existing mapping
is removed (`remove_port` result `unwrap`ped) and the add retried once;
any other error, and an error of the retried add, is returned.  Returns
the result, the final world state and the trace of gateway calls. -/
def addPortWithRetry {γ σ : Type} (oracle : GatewayOracle γ σ) (gateway : γ) (s : σ)
    (protocol : PortMappingProtocol) (port : Nat) (addr : SocketAddrV4)
    (duration : Nat) (comment : List Char) : RunResult × σ × List GatewayCall :=
  let callAdd := GatewayCall.add protocol port addr duration comment
  let r1 := oracle.addPort gateway s protocol port addr duration comment
  match r1.1 with
  | .ok _ => (.ok, r1.2, [callAdd])
  | .error .PortInUse =>
    let r2 := oracle.removePort gateway r1.2 protocol port
    match r2.1 with
    | .error _ => (.panic removeUnwrapMsg, r2.2, [callAdd, .remove protocol port])
    | .ok _ =>
      let r3 := oracle.addPort gateway r2.2 protocol port addr duration comment
      match r3.1 with
      | .ok _ => (.ok, r3.2, [callAdd, .remove protocol port, callAdd])
      | .error e => (.err e, r3.2, [callAdd, .remove protocol port, callAdd])
  | .error e => (.err e, r1.2, [callAdd])

/-- Function `run` from src/src/lib.rs.  Resolves the gateway and local socket
(either from the explicit `address` field — parse `unwrap`, discovery
`unwrap`, IPv4 check with `panic!` — or via `find_gateway_and_addr` with
the port substituted in), then applies the mapping with the one-shot
conflict retry.  Returns the result, the final gateway world state and
the trace of gateway calls. -/
def run {γ σ : Type} (search : SocketAddr → Option γ) (oracle : GatewayOracle γ σ)
    (ifaces : List Interface) (options : Options) (s0 : σ) :
    RunResult × σ × List GatewayCall :=
  let port := options.port
  let protocol := options.protocol
  let duration := options.duration
  let comment := options.comment
  match options.address with
  | none =>
    match (find_gateway_and_addr search ifaces).1 with
    | .panic m => (.panic m, s0, [])
    | .ok (gateway, addr0) =>
      let addr1 := addr0.set_port port
      match addr1 with
      | .V4 a => addPortWithRetry oracle gateway s0 protocol port a duration comment
      | .V6 _ _ => (.panic noIpv4Msg, s0, [])
  | some a =>
    match parseAddrWithPort a port with
    | none => (.panic parseUnwrapMsg, s0, [])
    | some sa =>
      match find_gateway_with_bind_addr search sa with
      | .panic m => (.panic m, s0, [])
      | .ok gateway =>
        match sa with
        | .V4 a4 => addPortWithRetry oracle gateway s0 protocol port a4 duration comment
        | .V6 _ _ => (.panic noIpv4Msg, s0, [])

/-!  A concrete gateway device model, for the idempotence property.  The
device itself is not part of this repository (it is the external UPnP
router reached through the igd crate), so its mapping-table semantics is
modelled from the spec. -/

/-- Modelled from the spec: one row of the external gateway device's port
mapping table — an external `(protocol, port)` pair bound to an internal
socket (spec section 3, GatewayHandle/mapping table; lease duration and
description are advisory and not part of the mapping identity). -/
structure TableEntry where
  protocol : PortMappingProtocol
  port : Nat
  internal : SocketAddrV4
deriving DecidableEq

/-- Modelled from the spec: the external gateway device's mapping table
(spec sections 3 and 8: a query of the gateway's mapping table shows each
external port bound to an internal socket). -/
abbrev GatewayTable := List TableEntry

/-- The table row, if any, for an external `(protocol, port)` pair. -/
def tableFind (t : GatewayTable) (protocol : PortMappingProtocol) (port : Nat) :
    Option TableEntry :=
  t.find? (fun e => decide (e.protocol = protocol ∧ e.port = port))

/-- Modelled from the spec: the device's `AddPortMapping` behaviour (spec
sections 4.2 and 8) — adding a mapping whose external port is free, or
already bound to the same internal socket, succeeds (and is a no-op in
the latter, already-correct case); adding when the external port is bound
to a different internal socket fails with the same-port conflict
`PortInUse`. -/
def tableAdd (t : GatewayTable) (protocol : PortMappingProtocol) (port : Nat)
    (internal : SocketAddrV4) : Except AddPortError Unit × GatewayTable :=
  match tableFind t protocol port with
  | some e =>
    if e.internal = internal then (.ok (), t)
    else (.error .PortInUse, t)
  | none => (.ok (), ⟨protocol, port, internal⟩ :: t)

/-- Modelled from the spec: the device's `DeletePortMapping` behaviour —
removing an existing mapping for `(protocol, port)` deletes it; removing
a non-existent one fails with `NoSuchPortMapping`. -/
def tableRemove (t : GatewayTable) (protocol : PortMappingProtocol) (port : Nat) :
    Except RemovePortError Unit × GatewayTable :=
  match tableFind t protocol port with
  | some _ => (.ok (), t.filter (fun e => !decide (e.protocol = protocol ∧ e.port = port)))
  | none => (.error .NoSuchPortMapping, t)

/-- The table-backed gateway oracle (the gateway handle carries no
information beyond reachability, so it is `Unit`). -/
def tableOracle : GatewayOracle Unit GatewayTable where
  addPort := fun _ t protocol port internal _ _ => tableAdd t protocol port internal
  removePort := fun _ t protocol port => tableRemove t protocol port

/-- Whether a result is the panic of the `unreachable!()` site of
`find_gateway_and_addr`. -/
def hitsUnreachable {α : Type} : PanicOr α → Bool
  | .panic m => decide (m = unreachableMsg)
  | .ok _ => false

/-!  Concrete fixtures for closed checks of the theorems below. -/

/-- A gateway world whose first add reports a same-port conflict and whose
retried add then succeeds; the state counts the calls made. -/
def conflictOracle : GatewayOracle Nat Nat where
  addPort := fun _ s _ _ _ _ _ => (if s = 0 then .error .PortInUse else .ok (), s + 1)
  removePort := fun _ s _ _ => (.ok (), s + 1)

/-- A gateway world whose first add reports a same-port conflict and whose
retried add fails with a non-conflict error. -/
def retryFailOracle : GatewayOracle Nat Nat where
  addPort := fun _ s _ _ _ _ _ =>
    (if s = 0 then .error .PortInUse else .error .ActionNotAuthorized, s + 1)
  removePort := fun _ s _ _ => (.ok (), s + 1)

/-- A gateway world whose add always fails with a non-conflict error. -/
def refuseOracle : GatewayOracle Nat Nat where
  addPort := fun _ s _ _ _ _ _ => (.error .ActionNotAuthorized, s + 1)
  removePort := fun _ s _ _ => (.ok (), s + 1)

/-- A discovery oracle that finds a gateway on every bind address. -/
def reachAll : SocketAddr → Option Nat := fun _ => some 1

/-- The discovery oracle paired with `tableOracle`: every bind address
reaches the device. -/
def tableSearch : SocketAddr → Option Unit := fun _ => some ()

/-- A concrete mapping specification with an explicit address (the spec's
end-to-end scenario A, with the address filled in). -/
def specUdp : Options := ⟨some "192.168.0.10".data, 80, .UDP, 60, "Test 1".data⟩

/-- A concrete mapping specification with the address omitted. -/
def specNoAddr : Options := ⟨none, 80, .UDP, 60, "Test 1".data⟩

/-- A loopback interface. -/
def loIface : Interface := ⟨"lo".data, .V4 ⟨⟨127, 0, 0, 1⟩⟩⟩

/-- An IPv6 (hence ineligible) interface. -/
def v6Iface : Interface := ⟨"eth1".data, .V6 ⟨"fe80::1".data⟩⟩

/-- An eligible interface on which concrete discovery oracles fail. -/
def deadIface : Interface := ⟨"eth2".data, .V4 ⟨⟨10, 0, 0, 7⟩⟩⟩

/-- An eligible interface on which concrete discovery oracles succeed. -/
def okIface : Interface := ⟨"eth0".data, .V4 ⟨⟨192, 168, 1, 5⟩⟩⟩

/-- An eligible interface listed after `okIface` in concrete scans. -/
def lateIface : Interface := ⟨"eth3".data, .V4 ⟨⟨192, 168, 2, 9⟩⟩⟩

/-- A discovery oracle that answers only on `okIface`'s bind address. -/
def reachOkOnly : SocketAddr → Option Nat := fun sa =>
  if sa = .V4 ⟨⟨192, 168, 1, 5⟩, 0⟩ then some 1 else none

/-!  Theorems. -/

/-- The eligibility test of `find_gateway_and_addr`, complemented. -/
theorem skip_cond_eq_not_eligible (i : Interface) :
    (i.is_loopback || !i.ip.is_ipv4) = !eligible i := by
  rcases h1 : i.is_loopback <;> rcases h2 : i.ip.is_ipv4 <;>
    simp [eligible, h1, h2]

/-- An eligible interface carries a V4 interface address and is not
loopback. -/
theorem eligible_addr_v4 {i : Interface} (h : eligible i = true) :
    ∃ a, i.addr = IfAddr.V4 a ∧ i.is_loopback = false := by
  rw [eligible, Bool.and_eq_true, Bool.not_eq_true'] at h
  rcases hi : i.addr with a | a
  · exact ⟨a, rfl, h.1⟩
  · exfalso
    have := h.2
    rw [Interface.ip, hi] at this
    simp [IpAddr.is_ipv4] at this

/-- The `unreachable!()` branch of `find_gateway_and_addr` is dead: every
interface that passes the not-loopback-and-IPv4 filter carries a V4
interface address, so the V4 destructuring after a successful discovery
always succeeds. -/
theorem find_gateway_and_addr_no_unreachable {γ : Type}
    (search : SocketAddr → Option γ) (ifaces : List Interface) :
    hitsUnreachable (find_gateway_and_addr search ifaces).1 = false := by
  induction ifaces with
  | nil => rfl
  | cons i rest ih =>
    rw [find_gateway_and_addr]
    rcases he : eligible i with _ | _
    · rw [skip_cond_eq_not_eligible, he]
      simpa using ih
    · obtain ⟨a, hi, _⟩ := eligible_addr_v4 he
      rw [skip_cond_eq_not_eligible, he]
      simp only [Bool.not_true, Bool.false_eq_true, if_false, hi]
      rcases hs : search (.V4 ⟨a.ip, 0⟩) with _ | gw
      · simpa using ih
      · simp [hi, hitsUnreachable]

/-- A successful `find_gateway_and_addr` always pairs the gateway with a
V4 socket address carrying port 0. -/
theorem find_gateway_and_addr_ok_addr {γ : Type}
    (search : SocketAddr → Option γ) (ifaces : List Interface)
    {gw : γ} {addr : SocketAddr}
    (h : (find_gateway_and_addr search ifaces).1 = .ok (gw, addr)) :
    ∃ ip, addr = .V4 ⟨ip, 0⟩ := by
  induction ifaces with
  | nil => simp [find_gateway_and_addr] at h
  | cons i rest ih =>
    rw [find_gateway_and_addr] at h
    rcases he : eligible i with _ | _
    · rw [skip_cond_eq_not_eligible, he] at h
      simp only [Bool.not_false, if_true] at h
      exact ih h
    · obtain ⟨a, hi, _⟩ := eligible_addr_v4 he
      rw [skip_cond_eq_not_eligible, he] at h
      simp only [Bool.not_true, Bool.false_eq_true, if_false, hi] at h
      rcases hs : search (.V4 ⟨a.ip, 0⟩) with _ | gw'
      · rw [hs] at h
        exact ih h
      · rw [hs] at h
        simp only [PanicOr.ok.injEq, Prod.mk.injEq] at h
        exact ⟨a.ip, h.2.symm⟩

/-- C3: with no explicit address, gateway location scans the interfaces
in enumeration order, skipping loopback and non-IPv4 interfaces without
a discovery attempt, attempts discovery on each remaining interface, and
returns the first successful one paired with its address (port 0); the
attempt trace is exactly the eligible prefix up to and including the
first success — nothing after it is tried. -/
theorem find_gateway_and_addr_first_success {γ : Type}
    (search : SocketAddr → Option γ) (pre post : List Interface)
    (i : Interface) (a : Ifv4Addr) (gw : γ)
    (hl : i.is_loopback = false) (hi : i.addr = IfAddr.V4 a)
    (hs : search (.V4 ⟨a.ip, 0⟩) = some gw)
    (hpre : ∀ j ∈ pre, eligible j = true → search (bindOf j) = none) :
    find_gateway_and_addr search (pre ++ i :: post)
      = (.ok (gw, .V4 ⟨a.ip, 0⟩),
         (pre.filter eligible).map bindOf ++ [.V4 ⟨a.ip, 0⟩]) := by
  induction pre with
  | nil =>
    have he : eligible i = true := by
      simp [eligible, hl, Interface.ip, hi, IpAddr.is_ipv4]
    rw [List.nil_append, find_gateway_and_addr, skip_cond_eq_not_eligible, he]
    simp [hi, hs]
  | cons j pre' ih =>
    rw [List.cons_append, find_gateway_and_addr]
    rcases he : eligible j with _ | _
    · rw [skip_cond_eq_not_eligible, he]
      simp only [Bool.not_false, if_true]
      rw [ih (fun k hk => hpre k (List.mem_cons_of_mem _ hk))]
      simp [List.filter_cons, he]
    · obtain ⟨aj, hj, _⟩ := eligible_addr_v4 he
      have hsj := hpre j (List.mem_cons_self _ _) he
      rw [bindOf, hj] at hsj
      rw [skip_cond_eq_not_eligible, he]
      simp only [Bool.not_true, Bool.false_eq_true, if_false, hj, hsj]
      rw [ih (fun k hk => hpre k (List.mem_cons_of_mem _ hk))]
      simp [List.filter_cons, he, bindOf, hj]

/-- C4 (amended): with no explicit address, when no eligible interface
exists or discovery fails on every eligible interface, gateway location
panics (the final `unwrap` of `.next()` on an exhausted iterator) instead
of returning an error value. -/
theorem find_gateway_and_addr_all_fail_panics {γ : Type}
    (search : SocketAddr → Option γ) (ifaces : List Interface)
    (hall : ∀ j ∈ ifaces, eligible j = true → search (bindOf j) = none) :
    (find_gateway_and_addr search ifaces).1 = .panic unwrapNoneMsg := by
  induction ifaces with
  | nil => rfl
  | cons i rest ih =>
    rw [find_gateway_and_addr]
    rcases he : eligible i with _ | _
    · rw [skip_cond_eq_not_eligible, he]
      simp only [Bool.not_false, if_true]
      exact ih (fun j hj => hall j (List.mem_cons_of_mem _ hj))
    · obtain ⟨a, hi, _⟩ := eligible_addr_v4 he
      have hs := hall i (List.mem_cons_self _ _) he
      rw [bindOf, hi] at hs
      rw [skip_cond_eq_not_eligible, he]
      simp only [Bool.not_true, Bool.false_eq_true, if_false, hi, hs]
      exact ih (fun j hj => hall j (List.mem_cons_of_mem _ hj))

/-- C4 (counterexample): with an empty interface list, and likewise when
the only eligible interface's discovery fails, `find_gateway_and_addr`
panics — it does not return a `DiscoveryError::NoInterfaceReachable`
value to the caller (no such error path exists in the code). -/
theorem find_gateway_and_addr_all_fail_panics_cex :
    (find_gateway_and_addr (fun _ => (none : Option Nat)) []).1
        = .panic unwrapNoneMsg
    ∧ (find_gateway_and_addr (fun _ => (none : Option Nat)) [okIface]).1
        = .panic unwrapNoneMsg := by
  constructor <;> rfl

/-- C4 (witness): the amended theorem applied to a scan over a loopback
interface, an IPv6 interface and an eligible interface whose discovery
fails. -/
theorem find_gateway_and_addr_all_fail_panics_witness :
    (find_gateway_and_addr (fun _ => (none : Option Nat))
        [loIface, v6Iface, deadIface]).1 = .panic unwrapNoneMsg :=
  find_gateway_and_addr_all_fail_panics _ _ (by decide)

/-- C3 (witness): the first-success theorem applied to a concrete scan:
a loopback, an IPv6 and a failing eligible interface precede the
successful one, and a further eligible interface follows it; only the
two eligible bind addresses up to the success are attempted. -/
theorem find_gateway_and_addr_first_success_witness :
    find_gateway_and_addr reachOkOnly [loIface, v6Iface, deadIface, okIface, lateIface]
      = (.ok (1, .V4 ⟨⟨192, 168, 1, 5⟩, 0⟩),
         [.V4 ⟨⟨10, 0, 0, 7⟩, 0⟩, .V4 ⟨⟨192, 168, 1, 5⟩, 0⟩]) :=
  find_gateway_and_addr_first_success reachOkOnly [loIface, v6Iface, deadIface]
    [lateIface] okIface ⟨⟨192, 168, 1, 5⟩⟩ 1 (by decide) rfl (by decide) (by decide)

/-- Every call the add-with-retry phase performs is either the add of the
given mapping or the remove of its `(protocol, port)` pair. -/
theorem addPortWithRetry_call_shape {γ σ : Type} (oracle : GatewayOracle γ σ)
    (gateway : γ) (s : σ) (protocol : PortMappingProtocol) (port : Nat)
    (addr : SocketAddrV4) (duration : Nat) (comment : List Char)
    {c : GatewayCall}
    (hc : c ∈ (addPortWithRetry oracle gateway s protocol port addr duration comment).2.2) :
    c = .add protocol port addr duration comment ∨ c = .remove protocol port := by
  simp only [addPortWithRetry] at hc
  repeat' split at hc
  all_goals simp only [List.mem_cons, List.mem_singleton, List.not_mem_nil] at hc
  all_goals tauto

/-- A successful IPv4 parse of the explicit address together with the
port yields a socket whose port is exactly that port. -/
theorem parseAddrWithPort_v4 {a : List Char} {port : Nat} {v : SocketAddrV4}
    (h : parseAddrWithPort a port = some (.V4 v)) : ∃ ip, v = ⟨ip, port⟩ := by
  unfold parseAddrWithPort at h
  repeat' split at h
  all_goals simp_all
  exact ⟨_, h.symm⟩

/-- Running with an explicit, well-formed IPv4 address and a reachable
gateway reduces to the add-with-retry phase on the parsed socket. -/
theorem run_explicit_addr_eq_retry {γ σ : Type}
    (search : SocketAddr → Option γ) (oracle : GatewayOracle γ σ)
    (ifaces : List Interface) (opts : Options) (s0 : σ)
    {a : List Char} {v : SocketAddrV4} {gw : γ}
    (ha : opts.address = some a)
    (hp : parseAddrWithPort a opts.port = some (.V4 v))
    (hgw : search (.V4 v) = some gw) :
    run search oracle ifaces opts s0
      = addPortWithRetry oracle gw s0 opts.protocol opts.port v opts.duration
          opts.comment := by
  simp only [run, ha, hp, find_gateway_with_bind_addr, hgw]

/-- C1: when the first add fails with the same-port conflict
`PortInUse` (and the gateway accepts the removal), `run` performs exactly
one remove for the `(protocol, port)` pair, followed by exactly one
retried add and nothing else; an error of the retried add is returned
as-is, with no further retry. -/
theorem run_conflict_one_remove_one_retry {γ σ : Type}
    (search : SocketAddr → Option γ) (oracle : GatewayOracle γ σ)
    (ifaces : List Interface) (opts : Options) (s0 : σ)
    (a : List Char) (v : SocketAddrV4) (gw : γ)
    (ha : opts.address = some a)
    (hp : parseAddrWithPort a opts.port = some (.V4 v))
    (hgw : search (.V4 v) = some gw)
    (h1 : (oracle.addPort gw s0 opts.protocol opts.port v opts.duration opts.comment).1
        = .error .PortInUse)
    (h2 : (oracle.removePort gw
        (oracle.addPort gw s0 opts.protocol opts.port v opts.duration opts.comment).2
        opts.protocol opts.port).1 = .ok ()) :
    (run search oracle ifaces opts s0).2.2
      = [.add opts.protocol opts.port v opts.duration opts.comment,
         .remove opts.protocol opts.port,
         .add opts.protocol opts.port v opts.duration opts.comment]
    ∧ (∀ e : AddPortError,
        (oracle.addPort gw
            (oracle.removePort gw
              (oracle.addPort gw s0 opts.protocol opts.port v opts.duration
                opts.comment).2 opts.protocol opts.port).2
            opts.protocol opts.port v opts.duration opts.comment).1 = .error e →
        (run search oracle ifaces opts s0).1 = .err e) := by
  rw [run_explicit_addr_eq_retry search oracle ifaces opts s0 ha hp hgw]
  constructor
  · simp only [addPortWithRetry, h1, h2]
    rcases h3 : (oracle.addPort gw
        (oracle.removePort gw
          (oracle.addPort gw s0 opts.protocol opts.port v opts.duration
            opts.comment).2 opts.protocol opts.port).2
        opts.protocol opts.port v opts.duration opts.comment).1 with u | e3 <;>
      simp [h3]
  · intro e he
    simp [addPortWithRetry, h1, h2, he]

/-- C1 (witness): the theorem at a concrete world whose first add
conflicts and whose retried add fails; the failure comes back as the
result. -/
theorem run_conflict_one_remove_one_retry_witness :
    (run reachAll retryFailOracle [] specUdp 0).2.2
      = [.add .UDP 80 ⟨⟨192, 168, 0, 10⟩, 80⟩ 60 "Test 1".data,
         .remove .UDP 80,
         .add .UDP 80 ⟨⟨192, 168, 0, 10⟩, 80⟩ 60 "Test 1".data]
    ∧ (∀ e : AddPortError,
        (retryFailOracle.addPort 1
            (retryFailOracle.removePort 1
              (retryFailOracle.addPort 1 0 .UDP 80 ⟨⟨192, 168, 0, 10⟩, 80⟩ 60
                "Test 1".data).2 .UDP 80).2
            .UDP 80 ⟨⟨192, 168, 0, 10⟩, 80⟩ 60 "Test 1".data).1 = .error e →
        (run reachAll retryFailOracle [] specUdp 0).1 = .err e) :=
  run_conflict_one_remove_one_retry reachAll retryFailOracle [] specUdp 0
    "192.168.0.10".data ⟨⟨192, 168, 0, 10⟩, 80⟩ 1 rfl (by decide) rfl rfl rfl

/-- C2: when the first add fails with any error other than the same-port
conflict, `run` returns that error unchanged and performs no remove and
no retried add — the only gateway call is the one failed add. -/
theorem run_non_conflict_error_propagated {γ σ : Type}
    (search : SocketAddr → Option γ) (oracle : GatewayOracle γ σ)
    (ifaces : List Interface) (opts : Options) (s0 : σ)
    (a : List Char) (v : SocketAddrV4) (gw : γ) (e : AddPortError)
    (ha : opts.address = some a)
    (hp : parseAddrWithPort a opts.port = some (.V4 v))
    (hgw : search (.V4 v) = some gw)
    (hne : e ≠ .PortInUse)
    (h1 : (oracle.addPort gw s0 opts.protocol opts.port v opts.duration opts.comment).1
        = .error e) :
    (run search oracle ifaces opts s0).1 = .err e
    ∧ (run search oracle ifaces opts s0).2.2
        = [.add opts.protocol opts.port v opts.duration opts.comment] := by
  rw [run_explicit_addr_eq_retry search oracle ifaces opts s0 ha hp hgw]
  cases e
  case PortInUse => exact absurd rfl hne
  all_goals exact ⟨by simp [addPortWithRetry, h1], by simp [addPortWithRetry, h1]⟩

/-- C2 (witness): the theorem at a concrete world whose add fails with
`ActionNotAuthorized`: the error is returned and the trace holds only
the failed add. -/
theorem run_non_conflict_error_propagated_witness :
    (run reachAll refuseOracle [] specUdp 0).1 = .err .ActionNotAuthorized
    ∧ (run reachAll refuseOracle [] specUdp 0).2.2
        = [.add .UDP 80 ⟨⟨192, 168, 0, 10⟩, 80⟩ 60 "Test 1".data] :=
  run_non_conflict_error_propagated reachAll refuseOracle [] specUdp 0
    "192.168.0.10".data ⟨⟨192, 168, 0, 10⟩, 80⟩ 1 .ActionNotAuthorized rfl
    (by decide) rfl (by decide) rfl

/-- C5 (amended): when the explicit address together with the port does
not parse as a socket address, `run` panics at the parse `unwrap` —
before any discovery or gateway call — instead of returning an
`AddressParse` error value. -/
theorem run_malformed_address_panics {γ σ : Type}
    (search : SocketAddr → Option γ) (oracle : GatewayOracle γ σ)
    (ifaces : List Interface) (opts : Options) (s0 : σ) (a : List Char)
    (ha : opts.address = some a)
    (hp : parseAddrWithPort a opts.port = none) :
    run search oracle ifaces opts s0 = (.panic parseUnwrapMsg, s0, []) := by
  simp [run, ha, hp]

/-- C5 (counterexample): on the malformed explicit address `abc`, `run`
panics — it does not return a `DiscoveryError::AddressParse` value to
the caller (no such error path exists in the code). -/
theorem run_malformed_address_panics_cex :
    run tableSearch tableOracle []
        ⟨some "abc".data, 80, .UDP, 60, "Test 1".data⟩ []
      = (.panic parseUnwrapMsg, [], []) := by
  decide

/-- C5 (witness): the amended theorem at the malformed address `abc`. -/
theorem run_malformed_address_panics_witness :
    run reachAll refuseOracle [] ⟨some "abc".data, 80, .UDP, 60, "Test 1".data⟩ 0
      = (.panic parseUnwrapMsg, 0, []) :=
  run_malformed_address_panics reachAll refuseOracle _ _ 0 "abc".data rfl (by decide)

/-- C6 (amended): when the explicit address is well-formed but no gateway
answers the discovery bound to it, `run` panics at the
`search_gateway` `unwrap` inside `find_gateway_with_bind_addr` instead
of returning a `NoGateway` error value. -/
theorem run_no_gateway_panics {γ σ : Type}
    (search : SocketAddr → Option γ) (oracle : GatewayOracle γ σ)
    (ifaces : List Interface) (opts : Options) (s0 : σ)
    (a : List Char) (sa : SocketAddr)
    (ha : opts.address = some a)
    (hp : parseAddrWithPort a opts.port = some sa)
    (hs : search sa = none) :
    run search oracle ifaces opts s0 = (.panic searchUnwrapMsg, s0, []) := by
  simp [run, ha, hp, find_gateway_with_bind_addr, hs]

/-- C6 (counterexample): with the well-formed explicit address
`192.168.0.10` and a discovery that no device answers, `run` panics — it
does not return a `DiscoveryError::NoGateway` value to the caller (no
such error path exists in the code). -/
theorem run_no_gateway_panics_cex :
    run (fun _ => (none : Option Nat)) refuseOracle [] specUdp 0
      = (.panic searchUnwrapMsg, 0, []) := by
  decide

/-- C6 (witness): the amended theorem at the explicit address
`192.168.0.10` with an unanswered discovery. -/
theorem run_no_gateway_panics_witness :
    run (fun _ => (none : Option Nat)) conflictOracle [] specUdp 0
      = (.panic searchUnwrapMsg, 0, []) :=
  run_no_gateway_panics _ conflictOracle [] specUdp 0 "192.168.0.10".data
    (.V4 ⟨⟨192, 168, 0, 10⟩, 80⟩) rfl (by decide) rfl

/-- C7 (counterexample): a first-try success and a success after conflict
resolution return the very same value `Ok(())` from `run` — the result
does not distinguish the two cases (the code has no
`ReconciliationOutcome`); only the gateway call traces differ. -/
theorem run_success_value_not_distinguished_cex :
    (run tableSearch tableOracle [] specUdp []).1 = RunResult.ok
    ∧ (run tableSearch tableOracle [] specUdp
        [⟨.UDP, 80, ⟨⟨10, 0, 0, 1⟩, 80⟩⟩]).1 = RunResult.ok
    ∧ (run tableSearch tableOracle [] specUdp []).1
        = (run tableSearch tableOracle [] specUdp
            [⟨.UDP, 80, ⟨⟨10, 0, 0, 1⟩, 80⟩⟩]).1
    ∧ (run tableSearch tableOracle [] specUdp []).2.2
        ≠ (run tableSearch tableOracle [] specUdp
            [⟨.UDP, 80, ⟨⟨10, 0, 0, 1⟩, 80⟩⟩]).2.2 := by
  refine ⟨by decide, by decide, by decide, by decide⟩

/-- C7 (amended): both success cases yield the identical caller-visible
result `Ok(())`; the distinction between a first-try success and a
success after conflict resolution appears only in the trace of gateway
calls (one add versus add-remove-add), not in the returned value. -/
theorem run_success_value_same_trace_differs {γ₁ σ₁ γ₂ σ₂ : Type}
    (search₁ : SocketAddr → Option γ₁) (oracle₁ : GatewayOracle γ₁ σ₁)
    (search₂ : SocketAddr → Option γ₂) (oracle₂ : GatewayOracle γ₂ σ₂)
    (ifaces₁ ifaces₂ : List Interface) (opts : Options) (s₁ : σ₁) (s₂ : σ₂)
    (a : List Char) (v : SocketAddrV4) (gw₁ : γ₁) (gw₂ : γ₂)
    (ha : opts.address = some a)
    (hp : parseAddrWithPort a opts.port = some (.V4 v))
    (hgw₁ : search₁ (.V4 v) = some gw₁)
    (hgw₂ : search₂ (.V4 v) = some gw₂)
    (hA : (oracle₁.addPort gw₁ s₁ opts.protocol opts.port v opts.duration
        opts.comment).1 = .ok ())
    (hB1 : (oracle₂.addPort gw₂ s₂ opts.protocol opts.port v opts.duration
        opts.comment).1 = .error .PortInUse)
    (hB2 : (oracle₂.removePort gw₂
        (oracle₂.addPort gw₂ s₂ opts.protocol opts.port v opts.duration
          opts.comment).2 opts.protocol opts.port).1 = .ok ())
    (hB3 : (oracle₂.addPort gw₂
        (oracle₂.removePort gw₂
          (oracle₂.addPort gw₂ s₂ opts.protocol opts.port v opts.duration
            opts.comment).2 opts.protocol opts.port).2
        opts.protocol opts.port v opts.duration opts.comment).1 = .ok ()) :
    (run search₁ oracle₁ ifaces₁ opts s₁).1 = .ok
    ∧ (run search₂ oracle₂ ifaces₂ opts s₂).1 = .ok
    ∧ (run search₁ oracle₁ ifaces₁ opts s₁).1
        = (run search₂ oracle₂ ifaces₂ opts s₂).1
    ∧ (run search₁ oracle₁ ifaces₁ opts s₁).2.2
        = [.add opts.protocol opts.port v opts.duration opts.comment]
    ∧ (run search₂ oracle₂ ifaces₂ opts s₂).2.2
        = [.add opts.protocol opts.port v opts.duration opts.comment,
           .remove opts.protocol opts.port,
           .add opts.protocol opts.port v opts.duration opts.comment] := by
  rw [run_explicit_addr_eq_retry search₁ oracle₁ ifaces₁ opts s₁ ha hp hgw₁,
    run_explicit_addr_eq_retry search₂ oracle₂ ifaces₂ opts s₂ ha hp hgw₂]
  refine ⟨?_, ?_, ?_, ?_, ?_⟩ <;>
    simp [addPortWithRetry, hA, hB1, hB2, hB3]

/-- C7 (witness): the amended theorem at the table-backed device — an
empty table for the first-try success, a table with a foreign mapping of
port 80/UDP for the conflict-resolved success. -/
theorem run_success_value_same_trace_differs_witness :
    (run tableSearch tableOracle [] specUdp []).1 = .ok
    ∧ (run tableSearch tableOracle [] specUdp
        [⟨.UDP, 80, ⟨⟨10, 0, 0, 1⟩, 80⟩⟩]).1 = .ok
    ∧ (run tableSearch tableOracle [] specUdp []).1
        = (run tableSearch tableOracle [] specUdp
            [⟨.UDP, 80, ⟨⟨10, 0, 0, 1⟩, 80⟩⟩]).1
    ∧ (run tableSearch tableOracle [] specUdp []).2.2
        = [.add .UDP 80 ⟨⟨192, 168, 0, 10⟩, 80⟩ 60 "Test 1".data]
    ∧ (run tableSearch tableOracle [] specUdp
        [⟨.UDP, 80, ⟨⟨10, 0, 0, 1⟩, 80⟩⟩]).2.2
        = [.add .UDP 80 ⟨⟨192, 168, 0, 10⟩, 80⟩ 60 "Test 1".data,
           .remove .UDP 80,
           .add .UDP 80 ⟨⟨192, 168, 0, 10⟩, 80⟩ 60 "Test 1".data] :=
  run_success_value_same_trace_differs tableSearch tableOracle tableSearch
    tableOracle [] [] specUdp [] [⟨.UDP, 80, ⟨⟨10, 0, 0, 1⟩, 80⟩⟩]
    "192.168.0.10".data ⟨⟨192, 168, 0, 10⟩, 80⟩ () () rfl (by decide) rfl rfl
    rfl rfl rfl rfl

/-- C8: idempotence against the table-backed device — when the mapping
is already correct (the table binds the external `(protocol, port)` to
the very internal socket being asserted), `run` succeeds, leaves the
table unchanged, and a second `run` on the resulting table succeeds
again. -/
theorem run_idempotent_already_correct
    (ifaces : List Interface) (opts : Options) (t : GatewayTable)
    (a : List Char) (v : SocketAddrV4) (entry : TableEntry)
    (ha : opts.address = some a)
    (hp : parseAddrWithPort a opts.port = some (.V4 v))
    (hfind : tableFind t opts.protocol opts.port = some entry)
    (hcorrect : entry.internal = v) :
    (run tableSearch tableOracle ifaces opts t).1 = .ok
    ∧ (run tableSearch tableOracle ifaces opts t).2.1 = t
    ∧ (run tableSearch tableOracle ifaces opts
        (run tableSearch tableOracle ifaces opts t).2.1).1 = .ok := by
  have hgw : tableSearch (.V4 v) = some () := rfl
  have hadd : tableOracle.addPort () t opts.protocol opts.port v opts.duration
      opts.comment = (.ok (), t) := by
    simp [tableOracle, tableAdd, hfind, hcorrect]
  have h1 : run tableSearch tableOracle ifaces opts t
      = (.ok, t, [.add opts.protocol opts.port v opts.duration opts.comment]) := by
    rw [run_explicit_addr_eq_retry tableSearch tableOracle ifaces opts t ha hp hgw]
    simp [addPortWithRetry, hadd]
  refine ⟨by rw [h1], by rw [h1], ?_⟩
  rw [h1]
  show (run tableSearch tableOracle ifaces opts t).1 = .ok
  rw [h1]

/-- C8 (witness): the theorem at a table already holding the asserted
mapping of port 80/UDP to 192.168.0.10:80. -/
theorem run_idempotent_already_correct_witness :
    (run tableSearch tableOracle [] specUdp
        [⟨.UDP, 80, ⟨⟨192, 168, 0, 10⟩, 80⟩⟩]).1 = .ok
    ∧ (run tableSearch tableOracle [] specUdp
        [⟨.UDP, 80, ⟨⟨192, 168, 0, 10⟩, 80⟩⟩]).2.1
        = [⟨.UDP, 80, ⟨⟨192, 168, 0, 10⟩, 80⟩⟩]
    ∧ (run tableSearch tableOracle [] specUdp
        (run tableSearch tableOracle [] specUdp
          [⟨.UDP, 80, ⟨⟨192, 168, 0, 10⟩, 80⟩⟩]).2.1).1 = .ok :=
  run_idempotent_already_correct [] specUdp
    [⟨.UDP, 80, ⟨⟨192, 168, 0, 10⟩, 80⟩⟩] "192.168.0.10".data
    ⟨⟨192, 168, 0, 10⟩, 80⟩ ⟨.UDP, 80, ⟨⟨192, 168, 0, 10⟩, 80⟩⟩ rfl (by decide)
    rfl rfl

/-- C9: every add-port call `run` issues carries an internal socket whose
port equals the specification's external port — on the explicit-address
path (the parse attaches `options.port`) as well as on the
omitted-address path (the discovered address's port 0 is overwritten
with `options.port`). -/
theorem run_internal_port_eq_spec_port {γ σ : Type}
    (search : SocketAddr → Option γ) (oracle : GatewayOracle γ σ)
    (ifaces : List Interface) (opts : Options) (s0 : σ)
    (protocol : PortMappingProtocol) (p : Nat) (addr : SocketAddrV4)
    (dur : Nat) (desc : List Char)
    (hc : GatewayCall.add protocol p addr dur desc
        ∈ (run search oracle ifaces opts s0).2.2) :
    addr.port = opts.port := by
  rcases hoa : opts.address with _ | a
  · rcases hf : (find_gateway_and_addr search ifaces).1 with m | ⟨gw0, addr0⟩
    · simp only [run, hoa, hf, List.not_mem_nil] at hc
    · obtain ⟨ip, haddr0⟩ := find_gateway_and_addr_ok_addr search ifaces hf
      subst haddr0
      simp only [run, hoa, hf, SocketAddr.set_port] at hc
      rcases addPortWithRetry_call_shape oracle gw0 s0 opts.protocol opts.port
          ⟨ip, opts.port⟩ opts.duration opts.comment hc with he | he
      · injection he with h1 h2 h3 h4 h5
        subst h3
        rfl
      · simp at he
  · rcases hp : parseAddrWithPort a opts.port with _ | sa
    · simp only [run, hoa, hp, List.not_mem_nil] at hc
    · rcases sa with v4 | ⟨ip6, p6⟩
      · rcases hfg : find_gateway_with_bind_addr search (.V4 v4) with m | gw
        · simp only [run, hoa, hp, hfg, List.not_mem_nil] at hc
        · simp only [run, hoa, hp, hfg] at hc
          obtain ⟨ip, hv⟩ := parseAddrWithPort_v4 hp
          rcases addPortWithRetry_call_shape oracle gw s0 opts.protocol opts.port
              v4 opts.duration opts.comment hc with he | he
          · injection he with h1 h2 h3 h4 h5
            subst h3
            rw [hv]
          · simp at he
      · rcases hfg : find_gateway_with_bind_addr search (.V6 ip6 p6) with m | gw
        · simp only [run, hoa, hp, hfg, List.not_mem_nil] at hc
        · simp only [run, hoa, hp, hfg, List.not_mem_nil] at hc

/-- C9 (witness): the theorem on the omitted-address path — the add
issued after discovering 192.168.1.5 carries internal port 80, the
specification's external port. -/
theorem run_internal_port_eq_spec_port_witness :
    SocketAddrV4.port ⟨⟨192, 168, 1, 5⟩, 80⟩ = specNoAddr.port :=
  run_internal_port_eq_spec_port reachOkOnly conflictOracle [okIface] specNoAddr 0
    .UDP 80 ⟨⟨192, 168, 1, 5⟩, 80⟩ 60 "Test 1".data (by decide)

end UpnpDaemon
